import Mathlib

/-!
Shallow embedding of the order-lifecycle core of the doner_bot repository.

Stores (SQLite tables in src/app/database/service.py) are modelled as lists
inside a `DB` record; each service function becomes a pure Lean function on
`DB`.  Python floats are modelled as exact rationals (ℚ); `int(...)` applied
to a float is truncation toward zero, modelled by `ratTrunc`.  Python
`int(str)` / `float(str)` on decimal strings are modelled by `parseInt` /
`parseFloat` (plain decimal forms: optional surrounding whitespace, optional
sign, digits, for floats an optional fractional part).
-/

/-- Numeric value of a list of decimal digit characters. -/
def digitsVal (cs : List Char) : Nat :=
  cs.foldl (fun acc c => acc * 10 + (c.toNat - 48)) 0

/-- ASCII whitespace, the characters removed by Python `str.strip()`
(restricted to the ASCII range). -/
def isSpaceChar (c : Char) : Bool :=
  c = ' ' || c = '\t' || c = '\n' || c = '\r'

/-- Python `str.strip()`: drop leading and trailing whitespace. -/
def stripChars (cs : List Char) : List Char :=
  ((cs.dropWhile isSpaceChar).reverse.dropWhile isSpaceChar).reverse

/-- Python `str.strip()` on a string. -/
def pyStrip (s : String) : String :=
  String.mk (stripChars s.data)

/-- Models Python `int(s)` on plain decimal strings: strip whitespace,
optional sign, then a nonempty run of digits. -/
def parseInt (s : String) : Option Int :=
  match stripChars s.data with
  | [] => none
  | c :: rest =>
    if c = '-' then
      if rest ≠ [] ∧ rest.all Char.isDigit then some (-(digitsVal rest : Int)) else none
    else if c = '+' then
      if rest ≠ [] ∧ rest.all Char.isDigit then some ((digitsVal rest : Int)) else none
    else if (c :: rest).all Char.isDigit then some ((digitsVal (c :: rest) : Int)) else none

/-- Split a character list at each `.` (helper for the float parser). -/
def splitOnDot : List Char → List (List Char)
  | [] => [[]]
  | c :: rest =>
    if c = '.' then [] :: splitOnDot rest
    else
      match splitOnDot rest with
      | [] => [[c]]
      | h :: t => (c :: h) :: t

/-- Unsigned part of a plain decimal float literal: `digits`, `digits.digits`,
`digits.` or `.digits`. -/
def parseUnsignedFloat (cs : List Char) : Option ℚ :=
  match splitOnDot cs with
  | [a] =>
    if a ≠ [] ∧ a.all Char.isDigit then some ((digitsVal a : ℚ)) else none
  | [a, b] =>
    if (a ≠ [] ∨ b ≠ []) ∧ a.all Char.isDigit ∧ b.all Char.isDigit then
      some ((digitsVal a : ℚ) + (digitsVal b : ℚ) / ((10 : ℚ) ^ b.length))
    else none
  | _ => none

/-- Models Python `float(s)` on plain decimal strings. -/
def parseFloat (s : String) : Option ℚ :=
  match stripChars s.data with
  | '-' :: rest => (parseUnsignedFloat rest).map (fun q => -q)
  | '+' :: rest => parseUnsignedFloat rest
  | t => parseUnsignedFloat t

/-- Python `int(x)` on a number: truncation toward zero. -/
def ratTrunc (q : ℚ) : ℤ := Int.tdiv q.num (q.den : ℤ)

/-- Floor of a rational as an integer. -/
def ratFloor (q : ℚ) : ℤ := Int.fdiv q.num (q.den : ℤ)

/-- Round to nearest integer, ties to even (the rounding of `format(x, ".2f")`
for exactly representable values). -/
def roundHalfEven (q : ℚ) : ℤ :=
  let f := ratFloor q
  let r := q - (f : ℚ)
  if r < 1 / 2 then f
  else if 1 / 2 < r then f + 1
  else if f % 2 = 0 then f else f + 1

/-- Two-digit zero-padded rendering of a number below 100. -/
def pad2 (n : Nat) : String :=
  if n < 10 then "0" ++ toString n else toString n

/-- Models the Python format specifier `.2f` on a (non-negative or negative)
numeric value, two digits after the decimal point. -/
def fmt2 (q : ℚ) : String :=
  let c := roundHalfEven (q * 100)
  if c < 0 then
    "-" ++ toString ((-c).toNat / 100) ++ "." ++ pad2 ((-c).toNat % 100)
  else
    toString (c.toNat / 100) ++ "." ++ pad2 (c.toNat % 100)

/-- A row of the `menu` table. -/
structure MenuItem where
  id : Int
  name : String
  price : ℚ
  description : String
  category : String
  emoji : String
  is_active : Bool
deriving DecidableEq

/-- A cart entry as submitted by the web client and stored verbatim in
`pending_orders.cart_json`: keys `id`, `count`, `price`, `name`. -/
structure CartEntry where
  id : Int
  count : Int
  price : ℚ
  name : String
deriving DecidableEq

/-- A row of the `orders` table (timestamp omitted). -/
structure Order where
  user_id : Int
  items_json : List CartEntry
  total_price : ℚ
deriving DecidableEq

/-- The database state: the four tables of service.py plus the AUTOINCREMENT
counters for `menu.id` and `pending_orders.id`. -/
structure DB where
  menu : List MenuItem
  nextMenuId : Int
  categories : List String
  orders : List Order
  pending : List (Int × List CartEntry)
  nextPendingId : Int
deriving DecidableEq

/-- service.fetch_menu: all rows of `menu` with `is_active = 1`. -/
def fetch_menu (db : DB) : List MenuItem :=
  db.menu.filter (fun m => m.is_active)

/-- The hardcoded default category list of service.fetch_categories. -/
def defaultCategories : List String :=
  ["Classic", "Cheese", "Spicy", "Vegan", "Drinks"]

/-- Tier 1 of service.fetch_categories: DISTINCT categories of active menu
rows, dropping falsy (empty) values. -/
def activeCategories (db : DB) : List String :=
  (((fetch_menu db).map (fun m => m.category)).dedup).filter (fun c => decide (c ≠ ""))

/-- Insertion into a ≤-sorted list of strings (helper for ORDER BY name). -/
def insertSorted (a : String) : List String → List String
  | [] => [a]
  | b :: rest => if a ≤ b then a :: b :: rest else b :: insertSorted a rest

/-- Insertion sort on strings, modelling SQL `ORDER BY name`. -/
def sortStrings (l : List String) : List String :=
  l.foldr insertSorted []

/-- Tier 2 of service.fetch_categories: names of the `categories` table,
`ORDER BY name`, dropping falsy (empty) values. -/
def tableCategories (db : DB) : List String :=
  (sortStrings db.categories).filter (fun c => decide (c ≠ ""))

/-- service.fetch_categories: active-item categories, else the categories
table, else the hardcoded defaults. -/
def fetch_categories (db : DB) : List String :=
  let categories := activeCategories db
  let categories := if categories = [] then tableCategories db else categories
  if categories = [] then defaultCategories else categories

/-- service.save_order: INSERT a finalized order row. -/
def save_order (db : DB) (user_id : Int) (cart_items : List CartEntry)
    (total_price : ℚ) : DB :=
  { db with orders := db.orders ++ [⟨user_id, cart_items, total_price⟩] }

/-- service.save_pending_cart: INSERT the cart blob into `pending_orders`,
returning the fresh AUTOINCREMENT id together with the new state. -/
def save_pending_cart (db : DB) (cart_items : List CartEntry) : Int × DB :=
  (db.nextPendingId,
   { db with
      pending := db.pending ++ [(db.nextPendingId, cart_items)],
      nextPendingId := db.nextPendingId + 1 })

/-- service.fetch_pending_cart: SELECT cart_json FROM pending_orders WHERE
id = order_id, parsed back to the stored list, `none` when no row matches. -/
def fetch_pending_cart (db : DB) (order_id : Int) : Option (List CartEntry) :=
  (db.pending.find? (fun p => p.1 == order_id)).map (fun p => p.2)

/-- service.delete_pending_cart: DELETE FROM pending_orders WHERE id = order_id. -/
def delete_pending_cart (db : DB) (order_id : Int) : DB :=
  { db with pending := db.pending.filter (fun p => decide (p.1 ≠ order_id)) }

/-- service.add_menu_item.  The raw price is re-parsed with `float(price)`;
validation failures raise ValueError with the messages below and leave the
table untouched.  The inserted row takes the `is_active` DEFAULT 1. -/
def add_menu_item (db : DB) (name price description category emoji : String) :
    DB × Except String Unit :=
  if pyStrip name = "" then (db, .error "invalid_name")
  else
    match parseFloat price with
    | none => (db, .error "invalid_price")
    | some p =>
      if p < 0 then (db, .error "invalid_price")
      else if (db.menu.find? (fun m => m.name == name)).isSome then
        (db, .error "exists")
      else
        ({ db with
            menu := db.menu ++ [⟨db.nextMenuId, name, p, description, category, emoji, true⟩],
            nextMenuId := db.nextMenuId + 1 },
         .ok ())

/-- service.delete_menu_item: delete all rows matching the name, reporting
whether any row existed. -/
def delete_menu_item (db : DB) (name : String) : DB × Bool :=
  if (db.menu.find? (fun m => m.name == name)).isSome then
    ({ db with menu := db.menu.filter (fun m => m.name != name) }, true)
  else (db, false)

/-- A Telegram LabeledPrice: label text and amount in minor currency units. -/
structure LabeledPrice where
  label : String
  amount : ℤ
deriving DecidableEq

/-- The error outcomes of routes.create_invoice.  `cartEmpty` is the 400
response with body error "Cart is empty"; `unableToGenerate` the 400 response
with body error "Unable to generate invoice"; `telegramError` the 500 response
forwarding the issuer failure. -/
inductive InvoiceError where
  | cartEmpty : InvoiceError
  | unableToGenerate : InvoiceError
  | telegramError : String → InvoiceError
deriving DecidableEq

/-- The spec groups both 400 responses of create_invoice as the
EmptyOrUnresolvableCart failure class (spec section 6: status 400 =
"empty/unresolvable cart"). -/
def InvoiceError.isEmptyOrUnresolvableCart : InvoiceError → Bool
  | .cartEmpty => true
  | .unableToGenerate => true
  | .telegramError _ => false

/-- Resolution of a cart entry id against the active menu, as done by the
dict comprehension menu_map in routes.create_invoice (a later duplicate id
would overwrite an earlier one, hence the reverse-first lookup). -/
def resolveMenuItem (db : DB) (i : Int) : Option MenuItem :=
  ((fetch_menu db).reverse).find? (fun m => m.id == i)

/-- The prices loop of routes.create_invoice: for each cart entry, resolve
it against the active menu; unknown or inactive ids are skipped; counts ≤ 0
are skipped; otherwise emit the labeled price with label
name (xN) for N > 1 and bare name for N = 1, and amount
int(price * count * 100). -/
def priceLines (db : DB) (cart : List CartEntry) : List LabeledPrice :=
  cart.filterMap (fun e =>
    match resolveMenuItem db e.id with
    | none => none
    | some m =>
      if (0 : ℤ) < e.count then
        some ⟨if (1 : ℤ) < e.count then m.name ++ " (x" ++ toString e.count ++ ")" else m.name,
              ratTrunc (m.price * (e.count : ℚ) * 100)⟩
      else none)

/-- routes.create_invoice.  The external bot.create_invoice_link call is the
`issuer` parameter (payload id and priced lines to link or error).  Returns
the resulting state together with the response: the invoice link, or an
`InvoiceError`.  The pending cart is saved before the issuer is called, so on
an issuer failure the new pending row persists. -/
def create_invoice (db : DB) (cart : List CartEntry)
    (issuer : Int → List LabeledPrice → Except String String) :
    DB × Except InvoiceError String :=
  if cart = [] then (db, .error .cartEmpty)
  else
    let prices := priceLines db cart
    if prices = [] then (db, .error .unableToGenerate)
    else
      let saved := save_pending_cart db cart
      match issuer saved.1 prices with
      | .error e => (saved.2, .error (.telegramError e))
      | .ok link => (saved.2, .ok link)

/-- The successful_payment data carried by the Telegram message:
total_amount in minor units, currency code, and the opaque payload. -/
structure PaymentInfo where
  total_amount : Int
  currency : String
  invoice_payload : String
deriving DecidableEq

/-- The incoming bot message for process_successful_payment: optional
payment info and optional sender id. -/
structure PaymentMessage where
  successful_payment : Option PaymentInfo
  from_user : Option Int
deriving DecidableEq

/-- Store effects issued by process_successful_payment, in call order. -/
inductive Eff where
  | saveOrder : Int → List CartEntry → ℚ → Eff
  | deletePending : Int → Eff
deriving DecidableEq

/-- handlers: currency_symbol = "Br" if currency == "BYN" else currency. -/
def currencySymbol (currency : String) : String :=
  if currency = "BYN" then "Br" else currency

/-- One receipt line of process_successful_payment:
bullet, name, xCount, em dash, price*count to two decimals, symbol. -/
def receiptLine (sym : String) (e : CartEntry) : String :=
  "• " ++ e.name ++ " x" ++ toString e.count ++ " — "
    ++ fmt2 (e.price * (e.count : ℚ)) ++ " " ++ sym ++ "\n"

/-- The receipt accumulation loop of process_successful_payment: one
receipt line appended per cart item, in cart order. -/
def receiptLines (sym : String) : List CartEntry → String
  | [] => ""
  | e :: rest => receiptLine sym e ++ receiptLines sym rest

/-- The receipt text assembled by process_successful_payment. -/
def receiptText (items : List CartEntry) (total : ℚ) (sym : String) : String :=
  "✓ <b>Payment Successful!</b>\n\n" ++ "📋 <b>Your Receipt:</b>\n"
    ++ receiptLines sym items
    ++ "\n<b>Total Paid: " ++ fmt2 total ++ " " ++ sym ++ "</b>"
    ++ "\n\nThe kitchen is preparing your order!"

/-- handlers.process_successful_payment.  Returns the state after the
handler, the text answered to the user, and the trace of store-mutating
calls in the order they were made. -/
def process_successful_payment (db : DB) (msg : PaymentMessage) :
    DB × String × List Eff :=
  match msg.successful_payment with
  | none => (db, "Error: Payment information is not available.", [])
  | some pay =>
    let total_amount : ℚ := (pay.total_amount : ℚ) / 100
    match parseInt pay.invoice_payload with
    | none => (db, "Error: Invalid order payload.", [])
    | some order_id =>
      match fetch_pending_cart db order_id with
      | none => (db, "Error: Order not found. Please contact support.", [])
      | some cart_items =>
        if cart_items = [] then
          (db, "Error: Order not found. Please contact support.", [])
        else
          match msg.from_user with
          | none => (db, "Error: User information is not available.", [])
          | some uid =>
            let db1 := save_order db uid cart_items total_amount
            let db2 := delete_pending_cart db1 order_id
            (db2,
             receiptText cart_items total_amount (currencySymbol pay.currency),
             [Eff.saveOrder uid cart_items total_amount, Eff.deletePending order_id])

/-- s contains t as a contiguous substring. -/
def StrContains (s t : String) : Prop :=
  t.data <:+: s.data

/-! Concrete fixtures used by the witness theorems: a database seeded with
the Classic Kebab item (the seed row of service.init_db), one stored
pending cart, and matching payment messages. -/

/-- The first seed row of service.init_db. -/
def kebabItem : MenuItem :=
  ⟨1, "Classic Kebab", 120, "Chicken, cucumber, tomatoes, house sauce", "Classic", "🌯", true⟩

/-- A cart entry for two Classic Kebab, as the web client submits it. -/
def kebabEntry : CartEntry := ⟨1, 2, 120, "Classic Kebab"⟩

/-- A cart entry whose id resolves to no menu row. -/
def ghostEntry : CartEntry := ⟨99, 2, 10, "Ghost"⟩

/-- A cart entry with non-positive count. -/
def zeroCountEntry : CartEntry := ⟨1, 0, 120, "Classic Kebab"⟩

/-- Example state: one active menu item, one pending cart stored under id 5. -/
def dbExample : DB := ⟨[kebabItem], 2, ["Classic"], [], [(5, [kebabEntry])], 6⟩

/-- Example state with a pending row whose stored cart is the empty list. -/
def dbEmptyPending : DB := ⟨[kebabItem], 2, ["Classic"], [], [(9, [])], 10⟩

/-- Example state with no rows at all. -/
def dbBare : DB := ⟨[], 1, [], [], [], 1⟩

/-- The payment-confirmation event of the spec example: 24000 minor units,
currency BYN, payload "5". -/
def payExample : PaymentInfo := ⟨24000, "BYN", "5"⟩

/-- Payment event whose payload is not parseable as an integer. -/
def payBadPayload : PaymentInfo := ⟨24000, "BYN", "abc"⟩

/-- Payment event whose payload parses but matches no pending order. -/
def payUnknownId : PaymentInfo := ⟨24000, "BYN", "777"⟩

/-- Payment event whose payload names the empty-cart pending row. -/
def payEmptyCart : PaymentInfo := ⟨24000, "BYN", "9"⟩

/-- Message wrapper for `payExample` from user 42. -/
def msgExample : PaymentMessage := ⟨some payExample, some 42⟩

/-- Message wrapper for `payBadPayload`. -/
def msgBadPayload : PaymentMessage := ⟨some payBadPayload, some 42⟩

/-- Message wrapper for `payUnknownId`. -/
def msgUnknownId : PaymentMessage := ⟨some payUnknownId, some 42⟩

/-- Message wrapper for `payEmptyCart`. -/
def msgEmptyCart : PaymentMessage := ⟨some payEmptyCart, some 42⟩

/-- An issuer that always succeeds, returning a link naming the payload id. -/
def okIssuer : Int → List LabeledPrice → Except String String :=
  fun i _ => .ok ("https://t.me/invoice/" ++ toString i)

/-! Helper lemmas shared across the claim theorems. -/

theorem find?_filter_ne_eq_none {α : Type} (l : List (Int × α)) (i : Int) :
    (l.filter (fun p => decide (p.1 ≠ i))).find? (fun p => p.1 == i) = none := by
  rw [List.find?_eq_none]
  intro x hx
  have hmem := List.mem_filter.mp hx
  simp only [decide_eq_true_eq] at hmem
  simp only [beq_iff_eq]
  exact hmem.2

theorem fetch_after_delete (db : DB) (i : Int) :
    fetch_pending_cart (delete_pending_cart db i) i = none := by
  unfold fetch_pending_cart delete_pending_cart
  simp [find?_filter_ne_eq_none]

/-- C9: for every id, deleting from the pending-order store is idempotent:
a second delete of the same id changes nothing, and deleting an absent id
succeeds and leaves the store unchanged. -/
theorem C9_delete_pending_idempotent (db : DB) (order_id : Int) :
    delete_pending_cart (delete_pending_cart db order_id) order_id
        = delete_pending_cart db order_id
  ∧ (fetch_pending_cart db order_id = none → delete_pending_cart db order_id = db) := by
  constructor
  · unfold delete_pending_cart
    simp [List.filter_filter]
  · intro h
    unfold fetch_pending_cart at h
    rw [Option.map_eq_none'] at h
    unfold delete_pending_cart
    have heq : db.pending.filter (fun p => decide (p.1 ≠ order_id)) = db.pending := by
      apply List.filter_eq_self.mpr
      intro p hp
      have hne := List.find?_eq_none.mp h p hp
      simpa using hne
    rw [heq]

theorem C9_delete_pending_idempotent_witness :
    fetch_pending_cart dbExample 77 = none ∧ delete_pending_cart dbExample 77 = dbExample :=
  ⟨rfl, (C9_delete_pending_idempotent dbExample 77).2 rfl⟩

/-- C8: listCategories is exactly the three-tier fallback: distinct
categories of active menu rows when nonempty, else the categories table,
else the hardcoded default list. -/
theorem C8_categories_three_tier (db : DB) :
    (activeCategories db ≠ [] → fetch_categories db = activeCategories db)
  ∧ (activeCategories db = [] → tableCategories db ≠ [] →
       fetch_categories db = tableCategories db)
  ∧ (activeCategories db = [] → tableCategories db = [] →
       fetch_categories db = defaultCategories) := by
  unfold fetch_categories
  refine ⟨fun h => ?_, fun h1 h2 => ?_, fun h1 h2 => ?_⟩
  · simp [h]
  · simp [h1, h2]
  · simp [h1, h2]

theorem C8_categories_three_tier_witness :
    (activeCategories dbExample ≠ [] ∧
       fetch_categories dbExample = activeCategories dbExample)
  ∧ (activeCategories dbBare = [] ∧ tableCategories dbBare = [] ∧
       fetch_categories dbBare = defaultCategories) :=
  ⟨⟨by decide, (C8_categories_three_tier dbExample).1 (by decide)⟩,
   ⟨by decide, by decide, (C8_categories_three_tier dbBare).2.2 (by decide) (by decide)⟩⟩

/-- C3: a payment event with a non-integer payload answers the
invalid-payload error and mutates no store; a payment event whose payload
parses to an id with no pending row answers the order-not-found error and
mutates no store; in both cases no order is created and nothing is
deleted (the state is returned unchanged and the effect trace is empty). -/
theorem C3_confirm_payment_failures (db : DB) (msg : PaymentMessage) (pay : PaymentInfo)
    (hpay : msg.successful_payment = some pay) :
    (parseInt pay.invoice_payload = none →
       process_successful_payment db msg
         = (db, "Error: Invalid order payload.", []))
  ∧ (∀ order_id, parseInt pay.invoice_payload = some order_id →
       fetch_pending_cart db order_id = none →
       process_successful_payment db msg
         = (db, "Error: Order not found. Please contact support.", [])) := by
  constructor
  · intro h
    unfold process_successful_payment
    rw [hpay]
    simp [h]
  · intro order_id h1 h2
    unfold process_successful_payment
    rw [hpay]
    simp [h1, h2]

theorem C3_confirm_payment_failures_witness :
    (parseInt payBadPayload.invoice_payload = none ∧
       process_successful_payment dbExample msgBadPayload
         = (dbExample, "Error: Invalid order payload.", []))
  ∧ (parseInt payUnknownId.invoice_payload = some 777 ∧
       fetch_pending_cart dbExample 777 = none ∧
       process_successful_payment dbExample msgUnknownId
         = (dbExample, "Error: Order not found. Please contact support.", [])) :=
  ⟨⟨by decide, (C3_confirm_payment_failures dbExample msgBadPayload payBadPayload rfl).1 (by decide)⟩,
   ⟨by decide, rfl,
    (C3_confirm_payment_failures dbExample msgUnknownId payUnknownId rfl).2 777 (by decide) rfl⟩⟩

/-- C10: a payment event whose payload names a pending row whose stored
cart is the empty list is answered exactly like a missing order: the
order-not-found error, no new order, nothing deleted, state unchanged. -/
theorem C10_empty_pending_cart_is_not_found (db : DB) (msg : PaymentMessage)
    (pay : PaymentInfo) (order_id : Int)
    (hpay : msg.successful_payment = some pay)
    (hparse : parseInt pay.invoice_payload = some order_id)
    (hfetch : fetch_pending_cart db order_id = some []) :
    process_successful_payment db msg
      = (db, "Error: Order not found. Please contact support.", []) := by
  unfold process_successful_payment
  rw [hpay]
  simp [hparse, hfetch]

theorem C10_empty_pending_cart_is_not_found_witness :
    parseInt payEmptyCart.invoice_payload = some 9 ∧
    fetch_pending_cart dbEmptyPending 9 = some [] ∧
    process_successful_payment dbEmptyPending msgEmptyCart
      = (dbEmptyPending, "Error: Order not found. Please contact support.", []) :=
  ⟨by decide, rfl,
   C10_empty_pending_cart_is_not_found dbEmptyPending msgEmptyCart payEmptyCart 9
     rfl (by decide) rfl⟩

/-- C1: a payment event whose payload parses to the id of an existing
(nonempty) pending cart appends exactly one order row holding the stored
cart items and total amount/100, issues the order save strictly before the
pending delete, and afterwards fetching that pending id returns none.
(Every pending row written by create_invoice holds a nonempty cart, since
an empty cart is rejected before saving.) -/
theorem C1_confirm_payment_success (db : DB) (msg : PaymentMessage)
    (pay : PaymentInfo) (order_id uid : Int) (items : List CartEntry)
    (hpay : msg.successful_payment = some pay)
    (hparse : parseInt pay.invoice_payload = some order_id)
    (hfetch : fetch_pending_cart db order_id = some items)
    (hne : items ≠ [])
    (huser : msg.from_user = some uid) :
    (process_successful_payment db msg).1.orders
        = db.orders ++ [⟨uid, items, (pay.total_amount : ℚ) / 100⟩]
  ∧ (process_successful_payment db msg).2.2
        = [Eff.saveOrder uid items ((pay.total_amount : ℚ) / 100),
           Eff.deletePending order_id]
  ∧ fetch_pending_cart (process_successful_payment db msg).1 order_id = none := by
  have hred : process_successful_payment db msg
      = (delete_pending_cart
           (save_order db uid items ((pay.total_amount : ℚ) / 100)) order_id,
         receiptText items ((pay.total_amount : ℚ) / 100)
           (currencySymbol pay.currency),
         [Eff.saveOrder uid items ((pay.total_amount : ℚ) / 100),
          Eff.deletePending order_id]) := by
    unfold process_successful_payment
    rw [hpay]
    simp [hparse, hfetch, hne, huser]
  refine ⟨?_, ?_, ?_⟩
  · rw [hred]
    simp [delete_pending_cart, save_order]
  · rw [hred]
  · rw [hred]
    exact fetch_after_delete _ order_id

theorem C1_confirm_payment_success_witness :
    parseInt payExample.invoice_payload = some 5 ∧
    fetch_pending_cart dbExample 5 = some [kebabEntry] ∧
    ((process_successful_payment dbExample msgExample).1.orders
        = dbExample.orders ++ [⟨42, [kebabEntry], (payExample.total_amount : ℚ) / 100⟩]
     ∧ (process_successful_payment dbExample msgExample).2.2
        = [Eff.saveOrder 42 [kebabEntry] ((payExample.total_amount : ℚ) / 100),
           Eff.deletePending 5]
     ∧ fetch_pending_cart (process_successful_payment dbExample msgExample).1 5 = none) :=
  ⟨by decide, rfl,
   C1_confirm_payment_success dbExample msgExample payExample 5 42 [kebabEntry]
     rfl (by decide) rfl (by simp) rfl⟩

theorem mem_priceLines (db : DB) (cart : List CartEntry) (e : CartEntry) (m : MenuItem)
    (he : e ∈ cart) (hm : resolveMenuItem db e.id = some m) (hc : (0 : ℤ) < e.count) :
    (⟨if (1 : ℤ) < e.count then m.name ++ " (x" ++ toString e.count ++ ")" else m.name,
      ratTrunc (m.price * (e.count : ℚ) * 100)⟩ : LabeledPrice) ∈ priceLines db cart := by
  unfold priceLines
  refine List.mem_filterMap.mpr ⟨e, he, ?_⟩
  rw [hm]
  simp [hc]

/-- C4: when every cart entry is unresolvable against the active menu or
has non-positive count, create_invoice answers a 400 of the
empty-or-unresolvable-cart class, and the state — in particular the
pending-order store — is unchanged.  Such entries are dropped silently:
none of them makes the priced-line loop fail. -/
theorem C4_all_entries_dropped (db : DB) (cart : List CartEntry)
    (issuer : Int → List LabeledPrice → Except String String)
    (h : ∀ e ∈ cart, resolveMenuItem db e.id = none ∨ e.count ≤ 0) :
    priceLines db cart = []
  ∧ (create_invoice db cart issuer).1 = db
  ∧ ∃ err, (create_invoice db cart issuer).2 = Except.error err
        ∧ err.isEmptyOrUnresolvableCart = true := by
  have hp : priceLines db cart = [] := by
    unfold priceLines
    rw [List.filterMap_eq_nil_iff]
    intro e he
    rcases h e he with h1 | h1
    · rw [h1]
    · cases hres : resolveMenuItem db e.id with
      | none => rfl
      | some m =>
        have : ¬ (0 : ℤ) < e.count := by omega
        simp [this]
  refine ⟨hp, ?_⟩
  unfold create_invoice
  by_cases hc : cart = []
  · simp only [hc, if_pos rfl]
    exact ⟨rfl, InvoiceError.cartEmpty, rfl, rfl⟩
  · simp only [if_neg hc, hp, if_pos rfl]
    exact ⟨rfl, InvoiceError.unableToGenerate, rfl, rfl⟩

theorem C4_all_entries_dropped_witness :
    ((∀ e ∈ [ghostEntry, zeroCountEntry], resolveMenuItem dbExample e.id = none ∨ e.count ≤ 0)
     ∧ priceLines dbExample [ghostEntry, zeroCountEntry] = []
     ∧ (create_invoice dbExample [ghostEntry, zeroCountEntry] okIssuer).1 = dbExample
     ∧ ∃ err, (create_invoice dbExample [ghostEntry, zeroCountEntry] okIssuer).2
           = Except.error err ∧ err.isEmptyOrUnresolvableCart = true) := by
  have h : ∀ e ∈ [ghostEntry, zeroCountEntry],
      resolveMenuItem dbExample e.id = none ∨ e.count ≤ 0 := by
    intro e he
    rcases List.mem_cons.mp he with rfl | he2
    · left; rfl
    · rcases List.mem_cons.mp he2 with rfl | he3
      · right; decide
      · cases he3
  exact ⟨h, C4_all_entries_dropped dbExample [ghostEntry, zeroCountEntry] okIssuer h⟩

/-- C5: every cart entry that resolves to an active menu item and has
positive count contributes its priced line to the invoice: label
name (xN) when the count N exceeds 1 and the bare item name when the
count is exactly 1, with amount int(price * count * 100), truncated
toward zero, where price is the catalog price of the resolved item. -/
theorem C5_priced_line_shape (db : DB) (cart : List CartEntry) (e : CartEntry)
    (m : MenuItem) (he : e ∈ cart) (hm : resolveMenuItem db e.id = some m) :
    ((1 : ℤ) < e.count →
       (⟨m.name ++ " (x" ++ toString e.count ++ ")",
         ratTrunc (m.price * (e.count : ℚ) * 100)⟩ : LabeledPrice) ∈ priceLines db cart)
  ∧ (e.count = 1 →
       (⟨m.name, ratTrunc (m.price * (e.count : ℚ) * 100)⟩ : LabeledPrice)
         ∈ priceLines db cart) := by
  constructor
  · intro h1
    have h0 : (0 : ℤ) < e.count := by omega
    have := mem_priceLines db cart e m he hm h0
    rw [if_pos h1] at this
    exact this
  · intro h1
    have h0 : (0 : ℤ) < e.count := by omega
    have := mem_priceLines db cart e m he hm h0
    rw [if_neg (by omega)] at this
    exact this

theorem C5_priced_line_shape_witness :
    (⟨"Classic Kebab (x2)", 24000⟩ : LabeledPrice) ∈ priceLines dbExample [kebabEntry] := by
  have h := (C5_priced_line_shape dbExample [kebabEntry] kebabEntry kebabItem
    (by simp) rfl).1 (by decide)
  have hlabel : kebabItem.name ++ " (x" ++ toString kebabEntry.count ++ ")"
      = "Classic Kebab (x2)" := rfl
  have hamount : ratTrunc (kebabItem.price * ((kebabEntry.count : ℤ) : ℚ) * 100)
      = 24000 := by
    show ratTrunc ((120 : ℚ) * ((2 : ℤ) : ℚ) * 100) = 24000
    norm_num [ratTrunc]
  rw [hlabel, hamount] at h
  exact h

/-- C2: a cart with at least one entry resolving to an active menu item
with positive count makes create_invoice return the issuer link and store
exactly one new pending row whose content is the submitted cart verbatim
(dropped entries included), under the fresh id. -/
theorem C2_request_invoice_persists_cart (db : DB) (cart : List CartEntry)
    (issuer : Int → List LabeledPrice → Except String String) (link : String)
    (hres : ∃ e ∈ cart, (resolveMenuItem db e.id).isSome ∧ (0 : ℤ) < e.count)
    (hiss : issuer db.nextPendingId (priceLines db cart) = Except.ok link) :
    create_invoice db cart issuer
      = ({ db with pending := db.pending ++ [(db.nextPendingId, cart)],
                   nextPendingId := db.nextPendingId + 1 },
         Except.ok link) := by
  obtain ⟨e, he, hsome, hpos⟩ := hres
  have hcart : cart ≠ [] := by
    intro h
    rw [h] at he
    cases he
  obtain ⟨m, hm⟩ := Option.isSome_iff_exists.mp hsome
  have hmem := mem_priceLines db cart e m he hm hpos
  have hprices : priceLines db cart ≠ [] := by
    intro h
    rw [h] at hmem
    cases hmem
  unfold create_invoice save_pending_cart
  simp only [if_neg hcart, if_neg hprices]
  rw [hiss]

theorem C2_request_invoice_persists_cart_witness :
    (resolveMenuItem dbExample kebabEntry.id).isSome ∧ (0 : ℤ) < kebabEntry.count ∧
    create_invoice dbExample [ghostEntry, kebabEntry] okIssuer
      = ({ dbExample with
            pending := dbExample.pending ++ [(dbExample.nextPendingId, [ghostEntry, kebabEntry])],
            nextPendingId := dbExample.nextPendingId + 1 },
         Except.ok "https://t.me/invoice/6") :=
  ⟨by decide, by decide,
   C2_request_invoice_persists_cart dbExample [ghostEntry, kebabEntry] okIssuer
     "https://t.me/invoice/6"
     ⟨kebabEntry, by simp, by decide, by decide⟩ rfl⟩

/-- C7: add_menu_item fails with invalid_name on an empty or
whitespace-only name, with invalid_price when the price does not parse or
is negative, and with exists when a row with exactly that name
(case-sensitive) is already present; every failure leaves the table
unchanged, and a successful add appends one row that is active. -/
theorem C7_add_menu_item_validation (db : DB)
    (name price description category emoji : String) :
    (pyStrip name = "" →
       add_menu_item db name price description category emoji
         = (db, Except.error "invalid_name"))
  ∧ (pyStrip name ≠ "" → parseFloat price = none →
       add_menu_item db name price description category emoji
         = (db, Except.error "invalid_price"))
  ∧ (∀ p, pyStrip name ≠ "" → parseFloat price = some p → p < 0 →
       add_menu_item db name price description category emoji
         = (db, Except.error "invalid_price"))
  ∧ (∀ p, pyStrip name ≠ "" → parseFloat price = some p → 0 ≤ p →
       (∃ m ∈ db.menu, m.name = name) →
       add_menu_item db name price description category emoji
         = (db, Except.error "exists"))
  ∧ (∀ p, pyStrip name ≠ "" → parseFloat price = some p → 0 ≤ p →
       (∀ m ∈ db.menu, m.name ≠ name) →
       add_menu_item db name price description category emoji
         = ({ db with
               menu := db.menu
                 ++ [⟨db.nextMenuId, name, p, description, category, emoji, true⟩],
               nextMenuId := db.nextMenuId + 1 },
            Except.ok ())) := by
  refine ⟨fun h => ?_, fun h hp => ?_, fun p h hp hneg => ?_,
          fun p h hp hpos hex => ?_, fun p h hp hpos habs => ?_⟩
  · unfold add_menu_item
    rw [if_pos h]
  · unfold add_menu_item
    rw [if_neg h, hp]
  · unfold add_menu_item
    rw [if_neg h, hp]
    simp only [if_pos hneg]
  · unfold add_menu_item
    rw [if_neg h, hp]
    obtain ⟨m, hm, hname⟩ := hex
    have hfound : (db.menu.find? (fun m => m.name == name)).isSome = true :=
      List.find?_isSome.mpr ⟨m, hm, by simp [hname]⟩
    simp only [if_neg (not_lt.mpr hpos), if_pos hfound]
  · unfold add_menu_item
    rw [if_neg h, hp]
    have hnone : db.menu.find? (fun m => m.name == name) = none :=
      List.find?_eq_none.mpr (fun m hm => by simp [habs m hm])
    simp only [if_neg (not_lt.mpr hpos), hnone, Option.isSome_none,
      Bool.false_eq_true, if_neg, ite_false]

theorem C7_add_menu_item_validation_witness :
    pyStrip "Test" ≠ "" ∧ parseFloat "abc" = none ∧
    add_menu_item dbExample "Test" "abc" "desc" "Classic" "☆"
      = (dbExample, Except.error "invalid_price") :=
  ⟨by decide, by decide,
   (C7_add_menu_item_validation dbExample "Test" "abc" "desc" "Classic" "☆").2.1
     (by decide) (by decide)⟩

theorem isInfix_append_left {α : Type} (l₁ l₂ l₃ : List α) (h : l₁ <:+: l₂) :
    l₁ <:+: l₃ ++ l₂ := by
  obtain ⟨s, t, rfl⟩ := h
  exact ⟨l₃ ++ s, t, by simp⟩

theorem isInfix_append_right {α : Type} (l₁ l₂ l₃ : List α) (h : l₁ <:+: l₂) :
    l₁ <:+: l₂ ++ l₃ := by
  obtain ⟨s, t, rfl⟩ := h
  exact ⟨s, t ++ l₃, by simp⟩

theorem line_infix_receiptLines (sym : String) (items : List CartEntry) (e : CartEntry)
    (he : e ∈ items) :
    (receiptLine sym e).data <:+: (receiptLines sym items).data := by
  induction items with
  | nil => cases he
  | cons x xs ih =>
    rcases List.mem_cons.mp he with rfl | hmem
    · show (receiptLine sym e).data <:+: (receiptLine sym e ++ receiptLines sym xs).data
      rw [String.data_append]
      exact isInfix_append_right _ _ _ (List.infix_refl _)
    · show (receiptLine sym e).data <:+: (receiptLine sym x ++ receiptLines sym xs).data
      rw [String.data_append]
      exact isInfix_append_left _ _ _ (ih hmem)

theorem core_infix_receiptLine (sym : String) (e : CartEntry) :
    (e.name ++ " x" ++ toString e.count ++ " — "
      ++ fmt2 (e.price * (e.count : ℚ)) ++ " " ++ sym).data
      <:+: (receiptLine sym e).data := by
  refine ⟨("• " : String).data, ("\n" : String).data, ?_⟩
  unfold receiptLine
  simp [String.data_append, List.append_assoc]

theorem lines_infix_receiptText (items : List CartEntry) (total : ℚ) (sym : String) :
    (receiptLines sym items).data <:+: (receiptText items total sym).data := by
  refine ⟨("✓ <b>Payment Successful!</b>\n\n" ++ "📋 <b>Your Receipt:</b>\n" : String).data,
          ("\n<b>Total Paid: " ++ fmt2 total ++ " " ++ sym ++ "</b>"
            ++ "\n\nThe kitchen is preparing your order!" : String).data, ?_⟩
  unfold receiptText
  simp [String.data_append, List.append_assoc]

theorem total_infix_receiptText (items : List CartEntry) (total : ℚ) (sym : String) :
    ("Total Paid: " ++ fmt2 total ++ " " ++ sym).data
      <:+: (receiptText items total sym).data := by
  refine ⟨("✓ <b>Payment Successful!</b>\n\n" ++ "📋 <b>Your Receipt:</b>\n" : String).data
            ++ (receiptLines sym items).data ++ ("\n<b>" : String).data,
          ("</b>" ++ "\n\nThe kitchen is preparing your order!" : String).data, ?_⟩
  unfold receiptText
  rw [show ("\n<b>Total Paid: " : String) = "\n<b>" ++ "Total Paid: " from rfl]
  simp [String.data_append, List.append_assoc]

/-- C6: on a successful confirmation the receipt contains, for every stored
cart item, the line name xCount em-dash (price*count formatted to two
decimals) currencySymbol, and the total line Total Paid: amount/100 to two
decimals; the currency symbol is Br exactly when the event currency is BYN
and the currency code itself otherwise. -/
theorem C6_receipt_contents (db : DB) (msg : PaymentMessage)
    (pay : PaymentInfo) (order_id uid : Int) (items : List CartEntry)
    (hpay : msg.successful_payment = some pay)
    (hparse : parseInt pay.invoice_payload = some order_id)
    (hfetch : fetch_pending_cart db order_id = some items)
    (hne : items ≠ [])
    (huser : msg.from_user = some uid) :
    (∀ e ∈ items,
       StrContains (process_successful_payment db msg).2.1
         (e.name ++ " x" ++ toString e.count ++ " — "
           ++ fmt2 (e.price * (e.count : ℚ)) ++ " " ++ currencySymbol pay.currency))
  ∧ StrContains (process_successful_payment db msg).2.1
      ("Total Paid: " ++ fmt2 ((pay.total_amount : ℚ) / 100) ++ " "
        ++ currencySymbol pay.currency)
  ∧ (pay.currency = "BYN" → currencySymbol pay.currency = "Br")
  ∧ (pay.currency ≠ "BYN" → currencySymbol pay.currency = pay.currency) := by
  have hred : (process_successful_payment db msg).2.1
      = receiptText items ((pay.total_amount : ℚ) / 100) (currencySymbol pay.currency) := by
    unfold process_successful_payment
    rw [hpay]
    simp [hparse, hfetch, hne, huser]
  refine ⟨?_, ?_, fun h => by simp [currencySymbol, h], fun h => by simp [currencySymbol, h]⟩
  · intro e he
    rw [StrContains, hred]
    exact (core_infix_receiptLine (currencySymbol pay.currency) e).trans
      ((line_infix_receiptLines (currencySymbol pay.currency) items e he).trans
        (lines_infix_receiptText items ((pay.total_amount : ℚ) / 100)
          (currencySymbol pay.currency)))
  · rw [StrContains, hred]
    exact total_infix_receiptText items ((pay.total_amount : ℚ) / 100)
      (currencySymbol pay.currency)

theorem fmt2_240 : fmt2 240 = "240.00" := by
  have h2 : roundHalfEven ((240 : ℚ) * 100) = 24000 := by
    norm_num [roundHalfEven, ratFloor]
  simp only [fmt2, h2]
  decide

theorem C6_receipt_contents_witness :
    StrContains (process_successful_payment dbExample msgExample).2.1
      "Classic Kebab x2 — 240.00 Br"
  ∧ StrContains (process_successful_payment dbExample msgExample).2.1
      "Total Paid: 240.00 Br" := by
  have h := C6_receipt_contents dbExample msgExample payExample 5 42 [kebabEntry]
    rfl (by decide) rfl (by simp) rfl
  have hline := h.1 kebabEntry (by simp)
  have htot := h.2.1
  have hfa : fmt2 (kebabEntry.price * ((kebabEntry.count : ℤ) : ℚ)) = "240.00" := by
    rw [show kebabEntry.price * ((kebabEntry.count : ℤ) : ℚ) = 240 by
      show (120 : ℚ) * ((2 : ℤ) : ℚ) = 240
      norm_num]
    exact fmt2_240
  have hfb : fmt2 ((payExample.total_amount : ℚ) / 100) = "240.00" := by
    rw [show ((payExample.total_amount : ℤ) : ℚ) / 100 = 240 by
      show ((24000 : ℤ) : ℚ) / 100 = 240
      norm_num]
    exact fmt2_240
  rw [hfa] at hline
  rw [hfb] at htot
  exact ⟨hline, htot⟩
